import Mathlib

/-!
Shallow embedding of drivers/thermal/imx8mm_thermal.c (i.MX8MM TMU driver):
the calibration-fuse resolution in imx8mm_tmu_probe, the calibration formula
imx8mm_get_calibrate_temp, the temperature read path tmu_get_temp, the trend
computation tmu_get_trend and the trip update tmu_set_trip_temp.

Machine integers: u32 values are Nat taken mod 2^32 where overflow matters;
the C store of a u32 into an int is modelled by two's-complement
re-interpretation (toInt32).  Register reads are modelled by passing a
snapshot of the relevant registers (TRITSR and TSCR) to the function; the
retry path of tmu_get_temp receives a second snapshot for its second read.
-/

namespace Imx8mmThermal

/-- #define TEMP_VAL_MASK 0xff -/
def TEMP_VAL_MASK : Nat := 0xff

/-- #define TEMP_LOW_LIMIT 10 -/
def TEMP_LOW_LIMIT : Nat := 10

/-- #define IMX_TEMP_PASSIVE_COOL_DELTA 10000 -/
def IMX_TEMP_PASSIVE_COOL_DELTA : Int := 10000

/-- errno EAGAIN = 11; the driver returns -EAGAIN. -/
def EAGAIN : Int := 11

/-- Modulus of u32 arithmetic. -/
def U32_MOD : Nat := 2 ^ 32

/-- enum imx_thermal_trip: IMX_TRIP_PASSIVE = 0. -/
def IMX_TRIP_PASSIVE : Int := 0

/-- enum imx_thermal_trip: IMX_TRIP_CRITICAL = 1. -/
def IMX_TRIP_CRITICAL : Int := 1

/-- Bitwise AND with TEMP_VAL_MASK = 0xff: keeping the low 8 bits of a
value is taking it mod 0x100. -/
def mask_temp_val (n : Nat) : Nat := n % (TEMP_VAL_MASK + 1)

/-- Conversion of an Int to its u32 representative (C conversion of a
signed value to u32: reduce mod 2^32). -/
def u32ofInt (i : Int) : Nat := (i % (U32_MOD : Int)).toNat

/-- Re-interpretation of a u32 value as a C int (two's complement). -/
def toInt32 (n : Nat) : Int :=
  if n % U32_MOD < 2 ^ 31 then ((n % U32_MOD : Nat) : Int)
  else ((n % U32_MOD : Nat) : Int) - (U32_MOD : Int)

/-- Snapshot of the two TMU data registers consumed by the read path:
TRITSR (immediate temp, offset 0x20) and TSCR (raw sensor value, offset
0x1c).  Both hold u32 values. -/
structure TmuRegs where
  tritsr : Nat
  tscr : Nat
  deriving Repr, DecidableEq

/-- The fields of struct imx8mm_tmu consumed by the embedded operations:
do_calib, fuse_calib_val (u32), temp_passive and temp_critical (int
millidegrees).  The tzd pointer is modelled separately as an
Option of the zone temperature where it is consumed (tmu_get_trend). -/
structure imx8mm_tmu where
  do_calib : Bool
  fuse_calib_val : Nat
  temp_passive : Int
  temp_critical : Int
  deriving Repr, DecidableEq

/-- enum thermal_trend of the kernel thermal framework. -/
inductive ThermalTrend where
  | stable
  | raising
  | dropping
  | raiseFull
  | dropFull
  deriving Repr, DecidableEq

/-- imx8mm_get_calibrate_temp: when do_calib holds, read TSCR, mask to the
low 8 bits and overwrite *val with raw_val - fuse_calib_val + 25 in u32
arithmetic; otherwise leave *val untouched. -/
def imx8mm_get_calibrate_temp (tmu : imx8mm_tmu) (regs : TmuRegs) (val : Nat) : Nat :=
  if tmu.do_calib then
    u32ofInt ((mask_temp_val regs.tscr : Int) - ((tmu.fuse_calib_val % U32_MOD : Nat) : Int) + 25)
  else val

/-- tmu_get_temp: read TRITSR masked to 8 bits, let the calibration step
possibly overwrite it from TSCR, and if the value is below TEMP_LOW_LIMIT
sleep once (second component counts the msleep calls) and redo both steps
on a second register snapshot; a second failure returns -EAGAIN, success
stores val * 1000 (u32 product re-interpreted as int). -/
def tmu_get_temp (tmu : imx8mm_tmu) (r1 r2 : TmuRegs) : Except Int Int × Nat :=
  let val := imx8mm_get_calibrate_temp tmu r1 (mask_temp_val r1.tritsr)
  if val < TEMP_LOW_LIMIT then
    let val2 := imx8mm_get_calibrate_temp tmu r2 (mask_temp_val r2.tritsr)
    if val2 < TEMP_LOW_LIMIT then (Except.error (-EAGAIN), 1)
    else (Except.ok (toInt32 (val2 * 1000 % U32_MOD)), 1)
  else (Except.ok (toInt32 (val * 1000 % U32_MOD)), 0)

/-- tmu_get_trend: when tmu->tzd is NULL return 0 at once (the out
parameter *trend keeps its incoming value); otherwise pick temp_passive for
trip == IMX_TRIP_PASSIVE and temp_critical for every other trip, and set
*trend to RAISE_FULL when the zone temperature is at least
trip_temp - IMX_TEMP_PASSIVE_COOL_DELTA, to DROP_FULL otherwise. -/
def tmu_get_trend (tmu : imx8mm_tmu) (tzd : Option Int) (trip : Int)
    (trend : ThermalTrend) : Int × ThermalTrend :=
  match tzd with
  | none => (0, trend)
  | some temperature =>
    let trip_temp := if trip = IMX_TRIP_PASSIVE then tmu.temp_passive else tmu.temp_critical
    if trip_temp - IMX_TEMP_PASSIVE_COOL_DELTA ≤ temperature then (0, ThermalTrend.raiseFull)
    else (0, ThermalTrend.dropFull)

/-- tmu_set_trip_temp: store temp into temp_critical when trip is
IMX_TRIP_CRITICAL, into temp_passive when trip is IMX_TRIP_PASSIVE, and
return 0 in every case. -/
def tmu_set_trip_temp (tmu : imx8mm_tmu) (trip : Int) (temp : Int) : imx8mm_tmu × Int :=
  let tmu1 := if trip = IMX_TRIP_CRITICAL then { tmu with temp_critical := temp } else tmu
  let tmu2 := if trip = IMX_TRIP_PASSIVE then { tmu1 with temp_passive := temp } else tmu1
  (tmu2, 0)

/-- Outcome of locating and mapping the OCOTP fuse block in
imx8mm_tmu_probe: the compatible node may be missing, the iomap may fail,
or the u32 fuse word at OCOTP_TMU_CALIB is read. -/
inductive OcotpAccess where
  | noNode
  | mapFail
  | word (v : Nat)
  deriving Repr, DecidableEq

/-- Result of the calibration-resolution tail of imx8mm_tmu_probe: the
do_calib and fuse_calib_val fields left in the tmu (both zero-initialised
by devm_kzalloc) and the probe return value. -/
structure ProbeCalibResult where
  do_calib : Bool
  fuse_calib_val : Nat
  ret : Int
  deriving Repr, DecidableEq

/-- Calibration-resolution tail of imx8mm_tmu_probe (after the hardware is
enabled): tmu->do_calib starts false; a missing node or failed map jumps
past the fuse read; otherwise val = fuse word masked with TEMP_VAL_MASK,
and the guard is val == 0 || val == ~0 where ~0 compared with a u32
converts to 0xffffffff = U32_MOD - 1; when the guard fails, the masked
value is stored and do_calib is set.  Every path returns 0. -/
def imx8mm_tmu_probe_calib (acc : OcotpAccess) : ProbeCalibResult :=
  match acc with
  | .noNode => ⟨false, 0, 0⟩
  | .mapFail => ⟨false, 0, 0⟩
  | .word v =>
    let val := mask_temp_val v
    if val = 0 ∨ val = U32_MOD - 1 then ⟨false, 0, 0⟩
    else ⟨true, val, 0⟩

end Imx8mmThermal

namespace Imx8mmThermal

/-! Helper lemmas shared by several claims. -/

lemma mask_temp_val_lt (n : Nat) : mask_temp_val n < 256 := by
  simp only [mask_temp_val, TEMP_VAL_MASK]
  omega

lemma u32ofInt_spec (i : Int) : u32ofInt i = (i % 4294967296).toNat := by
  simp only [u32ofInt, U32_MOD]
  norm_num

lemma toInt32_mul1000_of_lt_256 (v : Nat) (h : v < 256) :
    toInt32 (v * 1000 % U32_MOD) = (v : Int) * 1000 := by
  have h1 : v * 1000 % U32_MOD = v * 1000 := by
    simp only [U32_MOD]
    omega
  rw [h1]
  simp only [toInt32, U32_MOD]
  rw [Nat.mod_eq_of_lt (show v * 1000 < 2 ^ 32 by omega), if_pos (show v * 1000 < 2 ^ 31 by omega)]
  push_cast
  ring

/-- C1: the spec requires fuse value 0xFF (after masking) to yield the
Uncalibrated outcome, but the guard compares the 8-bit-masked value with
~0 = 0xffffffff, which can never match: the probe accepts 0xFF and sets
do_calib with offset 255. -/
theorem fuse_all_ones_bug :
    imx8mm_tmu_probe_calib (OcotpAccess.word 0xff) = ⟨true, 0xff, 0⟩ := by
  rfl

/-- C6 counterexample: with the thermal-zone reference absent, tmu_get_trend
returns 0 but leaves the trend output at its incoming value, which is not
the Stable value. -/
theorem get_trend_no_tzd_trend_not_stable :
    (tmu_get_trend ⟨false, 0, 0, 0⟩ none 0 ThermalTrend.raiseFull).2 =
      ThermalTrend.raiseFull ∧
    ThermalTrend.raiseFull ≠ ThermalTrend.stable := by
  exact ⟨rfl, by decide⟩

/-- C6 amended: with the thermal-zone reference absent, tmu_get_trend
returns success (0) and leaves the trend output unchanged, for every trip
selector and every incoming trend value. -/
theorem get_trend_no_tzd_preserves_trend (tmu : imx8mm_tmu) (trip : Int)
    (tr : ThermalTrend) :
    tmu_get_trend tmu none trip tr = (0, tr) := rfl

/-- C7: every outcome of the calibration resolution returns 0 from the
probe tail, and the unreadable paths (missing node, failed map) as well as
the fuse value rejected by the guard leave do_calib false: the
CalibrationUnavailable condition is absorbed, never returned as an error. -/
theorem probe_calib_absorbs_invalid_fuse (acc : OcotpAccess) (v : Nat)
    (hv : mask_temp_val v = 0) :
    (imx8mm_tmu_probe_calib acc).ret = 0 ∧
    (imx8mm_tmu_probe_calib OcotpAccess.noNode).do_calib = false ∧
    (imx8mm_tmu_probe_calib OcotpAccess.mapFail).do_calib = false ∧
    (imx8mm_tmu_probe_calib (OcotpAccess.word v)).do_calib = false := by
  refine ⟨?_, rfl, rfl, ?_⟩
  · cases acc with
    | noNode => rfl
    | mapFail => rfl
    | word w =>
      simp only [imx8mm_tmu_probe_calib]
      split <;> rfl
  · simp [imx8mm_tmu_probe_calib, hv]

theorem probe_calib_absorbs_invalid_fuse_witness :
    (imx8mm_tmu_probe_calib (OcotpAccess.word 0x100)).ret = 0 ∧
    (imx8mm_tmu_probe_calib OcotpAccess.noNode).do_calib = false ∧
    (imx8mm_tmu_probe_calib OcotpAccess.mapFail).do_calib = false ∧
    (imx8mm_tmu_probe_calib (OcotpAccess.word 0x100)).do_calib = false :=
  probe_calib_absorbs_invalid_fuse (OcotpAccess.word 0x100) 0x100 (by decide)

/-- C8: tmu_set_trip_temp with the passive selector overwrites exactly
temp_passive, with the critical selector exactly temp_critical, for every
supplied value (no validation), and returns 0 in both cases. -/
theorem set_trip_temp_overwrites_and_succeeds (tmu : imx8mm_tmu) (temp : Int) :
    tmu_set_trip_temp tmu IMX_TRIP_PASSIVE temp = ({ tmu with temp_passive := temp }, 0) ∧
    tmu_set_trip_temp tmu IMX_TRIP_CRITICAL temp = ({ tmu with temp_critical := temp }, 0) := by
  constructor <;> simp [tmu_set_trip_temp, IMX_TRIP_PASSIVE, IMX_TRIP_CRITICAL]

/-- C10: for every trip selector other than IMX_TRIP_PASSIVE, tmu_get_trend
computes the same answer as with the critical selector (the threshold
resolves to temp_critical); and tmu_set_trip_temp with a selector outside
the declared pair changes nothing and still returns 0. -/
theorem nonpassive_trip_resolves_critical (tmu : imx8mm_tmu) (T temp trip : Int)
    (tr : ThermalTrend) (h0 : trip ≠ IMX_TRIP_PASSIVE) :
    tmu_get_trend tmu (some T) trip tr = tmu_get_trend tmu (some T) IMX_TRIP_CRITICAL tr ∧
    (trip ≠ IMX_TRIP_CRITICAL → tmu_set_trip_temp tmu trip temp = (tmu, 0)) := by
  have h0' : trip ≠ (0 : Int) := by simpa [IMX_TRIP_PASSIVE] using h0
  constructor
  · simp [tmu_get_trend, IMX_TRIP_PASSIVE, IMX_TRIP_CRITICAL, h0']
  · intro h1
    simp [tmu_set_trip_temp, h0, h1]

theorem nonpassive_trip_resolves_critical_witness :
    tmu_get_trend ⟨false, 0, 0, 0⟩ (some 0) 2 ThermalTrend.stable =
      tmu_get_trend ⟨false, 0, 0, 0⟩ (some 0) IMX_TRIP_CRITICAL ThermalTrend.stable ∧
    ((2 : Int) ≠ IMX_TRIP_CRITICAL →
      tmu_set_trip_temp ⟨false, 0, 0, 0⟩ 2 7 = (⟨false, 0, 0, 0⟩, 0)) :=
  nonpassive_trip_resolves_critical ⟨false, 0, 0, 0⟩ 0 7 2 ThermalTrend.stable (by decide)

/-- C5: with the thermal-zone reference present, tmu_get_trend returns 0
and sets the trend to RAISE_FULL exactly when the zone temperature is at
least the selected threshold minus 10000 (the boundary included), to
DROP_FULL otherwise. -/
theorem get_trend_raise_iff_ge_threshold_minus_delta (tmu : imx8mm_tmu)
    (T trip : Int) (tr : ThermalTrend) :
    ((tmu_get_trend tmu (some T) trip tr).2 = ThermalTrend.raiseFull ↔
      (if trip = IMX_TRIP_PASSIVE then tmu.temp_passive else tmu.temp_critical) -
        IMX_TEMP_PASSIVE_COOL_DELTA ≤ T) ∧
    ((tmu_get_trend tmu (some T) trip tr).2 = ThermalTrend.dropFull ↔
      T < (if trip = IMX_TRIP_PASSIVE then tmu.temp_passive else tmu.temp_critical) -
        IMX_TEMP_PASSIVE_COOL_DELTA) ∧
    (tmu_get_trend tmu (some T) trip tr).1 = 0 := by
  simp only [tmu_get_trend]
  split_ifs with h <;> simp_all <;> omega

/-- C4: tmu_get_temp returns -EAGAIN exactly when both the first and the
second attempt produce a value below TEMP_LOW_LIMIT; it sleeps exactly
once when the first attempt is below the limit and never otherwise, so at
most one retry occurs. -/
theorem get_temp_single_retry_eagain (tmu : imx8mm_tmu) (r1 r2 : TmuRegs) :
    ((tmu_get_temp tmu r1 r2).1 = Except.error (-EAGAIN) ↔
      (imx8mm_get_calibrate_temp tmu r1 (mask_temp_val r1.tritsr) < TEMP_LOW_LIMIT ∧
       imx8mm_get_calibrate_temp tmu r2 (mask_temp_val r2.tritsr) < TEMP_LOW_LIMIT)) ∧
    ((tmu_get_temp tmu r1 r2).2 =
      if imx8mm_get_calibrate_temp tmu r1 (mask_temp_val r1.tritsr) < TEMP_LOW_LIMIT
      then 1 else 0) ∧
    (tmu_get_temp tmu r1 r2).2 ≤ 1 := by
  simp only [tmu_get_temp]
  split_ifs with h1 h2 <;> simp_all

/-- C9: with do_calib false the calibration step leaves the value
untouched: tmu_get_temp is independent of the TSCR raw register, a first
attempt at or above the limit returns the masked TRITSR reading times
1000, and a successful second attempt returns the second masked TRITSR
reading times 1000. -/
theorem uncalibrated_get_temp_uses_tritsr_only (tmu : imx8mm_tmu)
    (r1 r2 : TmuRegs) (s1 s2 : Nat) (h : tmu.do_calib = false) :
    tmu_get_temp tmu r1 r2 = tmu_get_temp tmu ⟨r1.tritsr, s1⟩ ⟨r2.tritsr, s2⟩ ∧
    (TEMP_LOW_LIMIT ≤ mask_temp_val r1.tritsr →
      (tmu_get_temp tmu r1 r2).1 = Except.ok ((mask_temp_val r1.tritsr : Int) * 1000)) ∧
    (mask_temp_val r1.tritsr < TEMP_LOW_LIMIT →
      TEMP_LOW_LIMIT ≤ mask_temp_val r2.tritsr →
      (tmu_get_temp tmu r1 r2).1 = Except.ok ((mask_temp_val r2.tritsr : Int) * 1000)) := by
  refine ⟨?_, ?_, ?_⟩
  · simp [tmu_get_temp, imx8mm_get_calibrate_temp, h]
  · intro h1
    simp only [tmu_get_temp, imx8mm_get_calibrate_temp, h, if_false, Bool.false_eq_true]
    rw [if_neg (by omega)]
    simp [toInt32_mul1000_of_lt_256 _ (mask_temp_val_lt r1.tritsr)]
  · intro h1 h2
    simp only [tmu_get_temp, imx8mm_get_calibrate_temp, h, if_false, Bool.false_eq_true]
    rw [if_pos h1, if_neg (by omega)]
    simp [toInt32_mul1000_of_lt_256 _ (mask_temp_val_lt r2.tritsr)]

theorem uncalibrated_get_temp_uses_tritsr_only_witness :
    tmu_get_temp ⟨false, 0, 0, 0⟩ ⟨45, 7⟩ ⟨45, 8⟩ =
      tmu_get_temp ⟨false, 0, 0, 0⟩ ⟨45, 9⟩ ⟨45, 9⟩ ∧
    (TEMP_LOW_LIMIT ≤ mask_temp_val 45 →
      (tmu_get_temp ⟨false, 0, 0, 0⟩ ⟨45, 7⟩ ⟨45, 8⟩).1 =
        Except.ok ((mask_temp_val 45 : Int) * 1000)) ∧
    (mask_temp_val 45 < TEMP_LOW_LIMIT → TEMP_LOW_LIMIT ≤ mask_temp_val 45 →
      (tmu_get_temp ⟨false, 0, 0, 0⟩ ⟨45, 7⟩ ⟨45, 8⟩).1 =
        Except.ok ((mask_temp_val 45 : Int) * 1000)) :=
  uncalibrated_get_temp_uses_tritsr_only ⟨false, 0, 0, 0⟩ ⟨45, 7⟩ ⟨45, 8⟩ 9 9 rfl

/-- C2 counterexample: with stored offset 26 and raw TSCR value 0, the
u32 computation wraps: the value used is 4294967295, not the exact integer
0 - 26 + 25 = -1. -/
theorem calibrate_temp_wraps_at_zero_raw :
    imx8mm_get_calibrate_temp ⟨true, 26, 0, 0⟩ ⟨0, 0⟩ 0 = 4294967295 ∧
    (0 : Int) - 26 + 25 = -1 ∧ ((4294967295 : Int) ≠ -1) := by
  refine ⟨by rfl, by norm_num, by norm_num⟩

/-- C2 amended: with calibration present and a stored 8-bit offset c, the
value is computed from the masked TSCR raw value r (the TRITSR immediate
register playing no role) as r - c + 25 in u32 arithmetic: it equals the
exact integer r - c + 25 whenever c ≤ r + 25, and wraps to
2^32 - (c - r - 25) otherwise. -/
theorem calibrate_temp_formula_mod_u32 (tmu : imx8mm_tmu) (regs regs2 : TmuRegs)
    (v v2 : Nat) (hcal : tmu.do_calib = true) (hc1 : 1 ≤ tmu.fuse_calib_val)
    (hc2 : tmu.fuse_calib_val ≤ 255) :
    (tmu.fuse_calib_val ≤ mask_temp_val regs.tscr + 25 →
      imx8mm_get_calibrate_temp tmu regs v =
        mask_temp_val regs.tscr + 25 - tmu.fuse_calib_val) ∧
    (mask_temp_val regs.tscr + 25 < tmu.fuse_calib_val →
      imx8mm_get_calibrate_temp tmu regs v =
        U32_MOD - (tmu.fuse_calib_val - mask_temp_val regs.tscr - 25)) ∧
    (regs2.tscr = regs.tscr →
      imx8mm_get_calibrate_temp tmu regs2 v2 = imx8mm_get_calibrate_temp tmu regs v) := by
  have hm : mask_temp_val regs.tscr < 256 := mask_temp_val_lt _
  have hf : tmu.fuse_calib_val % U32_MOD = tmu.fuse_calib_val := by
    simp only [U32_MOD]
    omega
  refine ⟨?_, ?_, ?_⟩
  · intro hle
    unfold imx8mm_get_calibrate_temp
    rw [if_pos hcal, hf, u32ofInt_spec]
    omega
  · intro hlt
    unfold imx8mm_get_calibrate_temp
    rw [if_pos hcal, hf, u32ofInt_spec]
    simp only [U32_MOD]
    omega
  · intro he
    unfold imx8mm_get_calibrate_temp
    rw [he, if_pos hcal, if_pos hcal]

theorem calibrate_temp_formula_mod_u32_witness :
    ((20 : Nat) ≤ mask_temp_val 30 + 25 →
      imx8mm_get_calibrate_temp ⟨true, 20, 0, 0⟩ ⟨0, 30⟩ 0 =
        mask_temp_val 30 + 25 - 20) ∧
    (mask_temp_val 30 + 25 < 20 →
      imx8mm_get_calibrate_temp ⟨true, 20, 0, 0⟩ ⟨0, 30⟩ 0 =
        U32_MOD - (20 - mask_temp_val 30 - 25)) ∧
    ((3 : Nat) = 30 →
      imx8mm_get_calibrate_temp ⟨true, 20, 0, 0⟩ ⟨9, 3⟩ 7 =
        imx8mm_get_calibrate_temp ⟨true, 20, 0, 0⟩ ⟨0, 30⟩ 0) :=
  calibrate_temp_formula_mod_u32 ⟨true, 20, 0, 0⟩ ⟨0, 30⟩ ⟨9, 3⟩ 0 7 rfl
    (by decide) (by decide)

/-- C3 counterexample: with stored offset 1 and raw value 255, tmu_get_temp
succeeds with 279000, a degrees-equivalent of 279, outside [10, 255]. -/
theorem get_temp_exceeds_255_degrees :
    (tmu_get_temp ⟨true, 1, 0, 0⟩ ⟨0, 255⟩ ⟨0, 255⟩).1 = Except.ok 279000 ∧
    (279000 : Int) = 279 * 1000 ∧ (255 : Int) < 279 := by
  refine ⟨by rfl, by norm_num, by norm_num⟩

lemma calibrate_val_range (tmu : imx8mm_tmu) (regs : TmuRegs) (x : Nat)
    (hfuse : tmu.do_calib = true → 1 ≤ tmu.fuse_calib_val ∧ tmu.fuse_calib_val ≤ 255) :
    imx8mm_get_calibrate_temp tmu regs (mask_temp_val x) ≤ 279 ∨
    (U32_MOD - 230 ≤ imx8mm_get_calibrate_temp tmu regs (mask_temp_val x) ∧
      imx8mm_get_calibrate_temp tmu regs (mask_temp_val x) < U32_MOD) := by
  by_cases hcal : tmu.do_calib = true
  · obtain ⟨hc1, hc2⟩ := hfuse hcal
    have hm : mask_temp_val regs.tscr < 256 := mask_temp_val_lt _
    have hf : tmu.fuse_calib_val % U32_MOD = tmu.fuse_calib_val := by
      simp only [U32_MOD]
      omega
    unfold imx8mm_get_calibrate_temp
    rw [if_pos hcal, hf, u32ofInt_spec]
    simp only [U32_MOD]
    omega
  · have hm : mask_temp_val x < 256 := mask_temp_val_lt x
    unfold imx8mm_get_calibrate_temp
    rw [if_neg hcal]
    left
    omega

lemma success_val_result (v : Nat) (hv10 : ¬ v < TEMP_LOW_LIMIT)
    (hr : v ≤ 279 ∨ (U32_MOD - 230 ≤ v ∧ v < U32_MOD)) :
    ∃ d : Int, toInt32 (v * 1000 % U32_MOD) = d * 1000 ∧ -230 ≤ d ∧ d ≤ 279 := by
  simp only [TEMP_LOW_LIMIT] at hv10
  rcases hr with h | ⟨h1, h2⟩
  · refine ⟨(v : Int), ?_, by omega, by omega⟩
    have h1 : v * 1000 % U32_MOD = v * 1000 := by
      simp only [U32_MOD]
      omega
    rw [h1]
    simp only [toInt32, U32_MOD]
    rw [Nat.mod_eq_of_lt (show v * 1000 < 2 ^ 32 by omega),
      if_pos (show v * 1000 < 2 ^ 31 by omega)]
    push_cast
    ring
  · simp only [U32_MOD] at h1 h2
    refine ⟨(v : Int) - 2 ^ 32, ?_, by omega, by omega⟩
    have hx : v * 1000 % 2 ^ 32 = v * 1000 - 999 * 2 ^ 32 := by omega
    simp only [U32_MOD, toInt32, hx]
    rw [show (v * 1000 - 999 * 2 ^ 32) % 2 ^ 32 = v * 1000 - 999 * 2 ^ 32 by omega,
      if_neg (show ¬ v * 1000 - 999 * 2 ^ 32 < 2 ^ 31 by omega)]
    omega

/-- C3 amended: on reachable states (a stored offset is a nonzero 8-bit
value) every successful tmu_get_temp result is a multiple of 1000, with a
degrees-equivalent value d in [-230, 279]: the u32 calibration wraparound
makes negative degrees reachable and offsets as small as 1 make values up
to 279 reachable, so the range [10, 255] of the claim does not hold. -/
theorem get_temp_multiple_of_1000_range (tmu : imx8mm_tmu) (r1 r2 : TmuRegs) (t : Int)
    (hfuse : tmu.do_calib = true → 1 ≤ tmu.fuse_calib_val ∧ tmu.fuse_calib_val ≤ 255)
    (hok : (tmu_get_temp tmu r1 r2).1 = Except.ok t) :
    ∃ d : Int, t = d * 1000 ∧ -230 ≤ d ∧ d ≤ 279 := by
  simp only [tmu_get_temp] at hok
  by_cases h1 : imx8mm_get_calibrate_temp tmu r1 (mask_temp_val r1.tritsr) < TEMP_LOW_LIMIT
  · rw [if_pos h1] at hok
    by_cases h2 : imx8mm_get_calibrate_temp tmu r2 (mask_temp_val r2.tritsr) < TEMP_LOW_LIMIT
    · rw [if_pos h2] at hok
      exact absurd hok (by simp)
    · rw [if_neg h2] at hok
      have hX : toInt32 (imx8mm_get_calibrate_temp tmu r2 (mask_temp_val r2.tritsr)
          * 1000 % U32_MOD) = t := Except.ok.inj hok
      obtain ⟨d, hd, hd1, hd2⟩ :=
        success_val_result _ h2 (calibrate_val_range tmu r2 r2.tritsr hfuse)
      exact ⟨d, by rw [← hX]; exact hd, hd1, hd2⟩
  · rw [if_neg h1] at hok
    have hX : toInt32 (imx8mm_get_calibrate_temp tmu r1 (mask_temp_val r1.tritsr)
        * 1000 % U32_MOD) = t := Except.ok.inj hok
    obtain ⟨d, hd, hd1, hd2⟩ :=
      success_val_result _ h1 (calibrate_val_range tmu r1 r1.tritsr hfuse)
    exact ⟨d, by rw [← hX]; exact hd, hd1, hd2⟩

theorem get_temp_multiple_of_1000_range_witness :
    ∃ d : Int, (45000 : Int) = d * 1000 ∧ -230 ≤ d ∧ d ≤ 279 :=
  get_temp_multiple_of_1000_range ⟨false, 0, 0, 0⟩ ⟨45, 0⟩ ⟨45, 0⟩ 45000
    (by decide) (by rfl)

end Imx8mmThermal
